import Mathlib

/-!
Shallow embedding of `src/argv_parser.py`: a command-line flag registration
and parsing library.  Registration calls build `Flag` records appended to a
registry; `parse_flags` scans the argument vector, matches tokens against the
registry, coerces values and enforces `required` constraints.  The regex
engine (`re.match`) is treated as an oracle parameter `pm : pattern → text →
Bool`; CPython's `int()` and `float()` literal acceptance are modelled by
`pyInt` and `pyFloatOk`.
-/

namespace Argv

/-- Mirrors the `FlagType` enum of the source (INT, FLOAT, STR, BOOL, REGEX). -/
inductive FlagType where
  | int
  | float
  | str
  | bool
  | regex
deriving DecidableEq, Repr

/-- A value held in a flag's mutable `value` slot.  A Python float value is
identified by the accepted source token: no claim in this development
compares floating-point values numerically, only whether coercion succeeds. -/
inductive FlagValue where
  | int (n : Int)
  | float (tok : String)
  | str (s : String)
  | bool (b : Bool)
deriving DecidableEq, Repr

/-- Mirrors the `Flag` dataclass, with the source's field order:
`value, required, typ, name, default, description, regex`. -/
structure Flag where
  value : FlagValue
  required : Bool
  typ : FlagType
  name : String
  default : FlagValue
  description : String
  regex : String
deriving DecidableEq, Repr

/-- Mirrors `__new_flag`: a fresh descriptor whose `value` starts at `default`. -/
def __new_flag (name : String) (d : FlagValue) (description : String)
    (typ : FlagType) (required : Bool) (regex : String) : Flag :=
  ⟨d, required, typ, name, d, description, regex⟩

/-- Mirrors `int_flag` (source defaults: `default=0`, `required=False`). -/
def int_flag (name description : String) (d : Int) (required : Bool) : Flag :=
  __new_flag name (FlagValue.int d) description FlagType.int required ""

/-- Mirrors `str_flag` (source defaults: `default=''`, `required=False`). -/
def str_flag (name description d : String) (required : Bool) : Flag :=
  __new_flag name (FlagValue.str d) description FlagType.str required ""

/-- Mirrors `regex_flag` (source parameter order: name, description, regex,
default, required). -/
def regex_flag (name description regex d : String) (required : Bool) : Flag :=
  __new_flag name (FlagValue.str d) description FlagType.regex required regex

/-- Mirrors `bool_flag`: default `False`, never required. -/
def bool_flag (name description : String) : Flag :=
  __new_flag name (FlagValue.bool false) description FlagType.bool false ""

/-- Mirrors `float_flag`; the default float is given by its source token. -/
def float_flag (name description : String) (d : String) (required : Bool) : Flag :=
  __new_flag name (FlagValue.float d) description FlagType.float required ""

/-- The token form `-name`, built character-wise so that general theorems can
compute its head character and its stripped tail. -/
def dash (name : String) : String := String.mk ('-' :: name.data)

/-- Mirrors `help_flag_present`: scans the raw token list for `-<flag_name>`. -/
def help_flag_present (argv : List String) (flag_name : String) : Bool :=
  argv.any (fun a => a == dash flag_name)

/-- `arg[0]` as a total function: `none` models the `IndexError` raised by
indexing an empty string. -/
def strHead? (s : String) : Option Char := s.data.head?

/-- `arg[1:]`. -/
def strTail (s : String) : String := String.mk s.data.tail

/-- Leading/trailing-whitespace removal, as CPython `int()`/`float()` allow. -/
def stripWs (l : List Char) : List Char :=
  ((l.dropWhile Char.isWhitespace).reverse.dropWhile Char.isWhitespace).reverse

/-- Base-10 value of a digit list. -/
def digitsVal (l : List Char) : Nat :=
  l.foldl (fun a c => a * 10 + (c.toNat - 48)) 0

/-- Nonempty and all ASCII digits. -/
def allDigits (l : List Char) : Bool := !l.isEmpty && l.all Char.isDigit

/-- Model of CPython `int(str)` (base 10): optional surrounding whitespace,
optional sign, one or more ASCII digits.  Underscore digit grouping and
non-ASCII digits are not modelled; every claim constrains tokens only through
this function's success or failure. -/
def pyInt (s : String) : Option Int :=
  match stripWs s.data with
  | '-' :: rest => if allDigits rest then some (-(digitsVal rest : Int)) else none
  | '+' :: rest => if allDigits rest then some ((digitsVal rest : Int)) else none
  | l => if allDigits l then some ((digitsVal l : Int)) else none

/-- Splits a character list on a separator character (like `str.split`). -/
def splitOnChar (sep : Char) : List Char → List (List Char)
  | [] => [[]]
  | c :: rest =>
    match splitOnChar sep rest with
    | [] => [[]]
    | h :: t => if c = sep then [] :: h :: t else (c :: h) :: t

/-- Drops one leading sign character if present. -/
def stripSignL : List Char → List Char
  | '-' :: rest => rest
  | '+' :: rest => rest
  | l => l

/-- Digits with an optional single decimal point, at least one digit present. -/
def mantissaOk (l : List Char) : Bool :=
  match splitOnChar '.' l with
  | [a] => allDigits a
  | [a, b] => (!a.isEmpty || !b.isEmpty) && a.all Char.isDigit && b.all Char.isDigit
  | _ => false

/-- Model of CPython `float(str)` acceptance: optional whitespace and sign,
then `inf`/`infinity`/`nan` (any case) or a decimal mantissa with an optional
exponent part.  Underscore grouping is not modelled; claims constrain tokens
only through this function's success or failure. -/
def pyFloatOk (s : String) : Bool :=
  let t := stripSignL ((stripWs s.data).map Char.toLower)
  if t == "inf".data || t == "infinity".data || t == "nan".data then true
  else
    match splitOnChar 'e' t with
    | [m] => mantissaOk m
    | [m, e] => mantissaOk m && allDigits (stripSignL e)
    | _ => false

/-- The failure kinds raised by `parse_flags` — in source order: the
"expected a flag" ValueError, the "unknown flag" ValueError, the "no value"
ValueError, the two TypeError kinds, the "required" ValueError — plus the
uncaught `IndexError` hit by `arg[0]` on an empty token.  Each carries the
token or name interpolated into the source's message. -/
inductive ParseError where
  | expectedFlag (tok : String)
  | unknownFlag (tok : String)
  | missingValue (tok : String)
  | typeMismatchInt (tok : String)
  | typeMismatchFloat (tok : String)
  | requiredMissing (name : String)
  | indexError
deriving DecidableEq, Repr

/-- One registry entry during a parse pass: the flag record (with its mutable
`value`) and whether it is still in the working list (`active = true` means
not yet matched).  Python keeps a working list `flags = FLAGS[:]` that
physically removes matched entries; scanning that list in order is exactly
scanning the active slots in order, and popping working-list entry `i` is
deactivating the corresponding slot. -/
structure Slot where
  flag : Flag
  active : Bool
deriving DecidableEq, Repr

/-- Outcome of a parse pass: the error raised (if any) and the state of every
flag when the pass ended.  In Python the mutations performed before an
exception persist on the flag objects, so the error case carries them too. -/
structure ParseResult where
  err : Option ParseError
  slots : List Slot
deriving DecidableEq, Repr

/-- The flag records (with their final `value`s) of a parse outcome. -/
def ParseResult.flags (r : ParseResult) : List Flag := r.slots.map Slot.flag

/-- Overwrite a flag's `value` slot. -/
def setValue (f : Flag) (v : FlagValue) : Flag := { f with value := v }

/-- Replace the slot at position `i` (no-op when out of range). -/
def updateAt : Nat → (Slot → Slot) → List Slot → List Slot
  | _, _, [] => []
  | 0, g, s :: rest => g s :: rest
  | i + 1, g, s :: rest => s :: updateAt i g rest

/-- Position and flag of the first active slot satisfying `p` — the working
list scan `next((i for i, v in enumerate(flags) if ...), -1)` rendered on
slots; the returned position indexes the full slot list. -/
def findActive (p : Flag → Bool) : List Slot → Option (Nat × Flag)
  | [] => none
  | s :: rest =>
    if s.active && p s.flag then some (0, s.flag)
    else (findActive p rest).map (fun x => (x.1 + 1, x.2))

/-- The source's float/str assignment statement for a non-Boolean flag matched
with a value token: `if flag.typ == FLOAT: coerce-or-raise else: assign the
raw token`.  Control reaches this statement for every non-Boolean kind,
including INT — the INT branch above it in the source is a separate `if`, not
an `elif`, so after a successful `int(value)` the `else` here overwrites the
flag with the verbatim string. -/
def floatStrAssign (typ : FlagType) (argTok v : String) : Except ParseError FlagValue :=
  if typ = FlagType.float then
    if pyFloatOk v then Except.ok (FlagValue.float v)
    else Except.error (ParseError.typeMismatchFloat argTok)
  else Except.ok (FlagValue.str v)

/-- Full value assignment for a non-Boolean flag: the INT coercion check
(raising TypeError on failure) followed by the float/str statement. -/
def assignValue (typ : FlagType) (argTok v : String) : Except ParseError FlagValue :=
  if typ = FlagType.int then
    match pyInt v with
    | none => Except.error (ParseError.typeMismatchInt argTok)
    | some _ => floatStrAssign typ argTok v
  else floatStrAssign typ argTok v

/-- Mirrors the final `for flag in flags: if flag.required: raise` scan over
the remaining working list: the first still-active required flag, if any. -/
def firstRequired : List Slot → Option Flag
  | [] => none
  | s :: rest => if s.active && s.flag.required then some s.flag else firstRequired rest

/-- The post-loop required check. -/
def requiredCheck (slots : List Slot) : ParseResult :=
  match firstRequired slots with
  | some f => ⟨some (ParseError.requiredMissing f.name), slots⟩
  | none => ⟨none, slots⟩

/-- The `while` loop of `parse_flags`, one constructor case per source branch:
empty token (`arg[0]` raises IndexError), unprefixed token (regex fallback
scan), prefixed token (name lookup, then Boolean / missing-value / coercion
handling). -/
def parseLoop (pm : String → String → Bool) : List String → List Slot → ParseResult
  | [], slots => requiredCheck slots
  | arg :: rest, slots =>
    match strHead? arg with
    | none => ⟨some ParseError.indexError, slots⟩
    | some c =>
      if c ≠ '-' then
        match findActive (fun f => f.typ == FlagType.regex && pm f.regex arg) slots with
        | some (i, _) =>
          parseLoop pm rest (updateAt i (fun s => ⟨setValue s.flag (FlagValue.str arg), false⟩) slots)
        | none => ⟨some (ParseError.expectedFlag arg), slots⟩
      else
        match findActive (fun f => f.name == strTail arg) slots with
        | none => ⟨some (ParseError.unknownFlag arg), slots⟩
        | some (i, flag) =>
          if flag.typ = FlagType.bool then
            parseLoop pm rest (updateAt i (fun s => ⟨setValue s.flag (FlagValue.bool true), false⟩) slots)
          else
            match rest with
            | [] => ⟨some (ParseError.missingValue arg), updateAt i (fun s => ⟨s.flag, false⟩) slots⟩
            | v :: rest2 =>
              match assignValue flag.typ arg v with
              | Except.error e => ⟨some e, updateAt i (fun s => ⟨s.flag, false⟩) slots⟩
              | Except.ok newVal =>
                parseLoop pm rest2 (updateAt i (fun s => ⟨setValue s.flag newVal, false⟩) slots)

/-- The working copy `flags = FLAGS[:]`: every registry entry, still active. -/
def initSlots (registry : List Flag) : List Slot := registry.map (fun f => ⟨f, true⟩)

/-- Mirrors `parse_flags(argv)`: drop the program name, run the matching loop
over a working copy of the registry, then check required flags.  `pm` is the
`re.match` oracle: `pm pattern text` is the truthiness of
`re.match(pattern, text)`. -/
def parse_flags (pm : String → String → Bool) (registry : List Flag)
    (argv : List String) : ParseResult :=
  parseLoop pm (argv.drop 1) (initSlots registry)

/-- A concrete regex oracle used for witnesses: a metacharacter-free pattern
matches (in `re.match`'s anchored-at-start sense) exactly when it is a literal
character-wise starting segment of the text. -/
def litPrefixMatch (p s : String) : Bool := List.isPrefixOf p.data s.data

/-- A regex oracle that matches nothing, for witnesses with no regex flags. -/
def noMatch (_ _ : String) : Bool := false

/-! ## Basic lemmas about the loop's building blocks -/

theorem strHead?_dash (name : String) : strHead? (dash name) = some '-' := rfl

theorem strTail_dash (name : String) : strTail (dash name) = name := rfl

theorem updateAt_append (pre : List Slot) (b : Slot) (post : List Slot) (g : Slot → Slot) :
    updateAt pre.length g (pre ++ b :: post) = pre ++ g b :: post := by
  induction pre with
  | nil => rfl
  | cons s pre ih => simp [updateAt, ih]

theorem findActive_append (p : Flag → Bool) (pre : List Slot) (b : Slot) (post : List Slot)
    (hpre : ∀ s ∈ pre, (s.active && p s.flag) = false)
    (hb : (b.active && p b.flag) = true) :
    findActive p (pre ++ b :: post) = some (pre.length, b.flag) := by
  induction pre with
  | nil => simp [findActive, hb]
  | cons s pre ih =>
    have h0 := hpre s (List.mem_cons_self s pre)
    have hrest : ∀ t ∈ pre, (t.active && p t.flag) = false :=
      fun t ht => hpre t (List.mem_cons_of_mem s ht)
    simp [findActive, h0, ih hrest]

theorem findActive_none (p : Flag → Bool) (slots : List Slot)
    (h : ∀ s ∈ slots, (s.active && p s.flag) = false) :
    findActive p slots = none := by
  induction slots with
  | nil => rfl
  | cons s rest ih =>
    have h0 := h s (List.mem_cons_self s rest)
    have hrest : ∀ t ∈ rest, (t.active && p t.flag) = false :=
      fun t ht => h t (List.mem_cons_of_mem s ht)
    simp [findActive, h0, ih hrest]

theorem updateAt_deactivate_values (i : Nat) (slots : List Slot) :
    (updateAt i (fun s => Slot.mk s.flag false) slots).map (fun s => s.flag.value)
      = slots.map (fun s => s.flag.value) := by
  induction slots generalizing i with
  | nil => cases i <;> rfl
  | cons s rest ih =>
    cases i with
    | zero => simp [updateAt]
    | succ j => simp [updateAt, ih]

/-! ## Step characterizations of the loop -/

/-- Processing a `-name` token: exactly the prefixed branch of the source. -/
theorem parseLoop_dash (pm : String → String → Bool) (name : String)
    (rest : List String) (slots : List Slot) :
    parseLoop pm (dash name :: rest) slots =
      match findActive (fun f => f.name == name) slots with
      | none => ⟨some (ParseError.unknownFlag (dash name)), slots⟩
      | some (i, flag) =>
        if flag.typ = FlagType.bool then
          parseLoop pm rest
            (updateAt i (fun s => Slot.mk (setValue s.flag (FlagValue.bool true)) false) slots)
        else
          match rest with
          | [] => ⟨some (ParseError.missingValue (dash name)),
                   updateAt i (fun s => Slot.mk s.flag false) slots⟩
          | v :: rest2 =>
            match assignValue flag.typ (dash name) v with
            | Except.error e => ⟨some e, updateAt i (fun s => Slot.mk s.flag false) slots⟩
            | Except.ok newVal =>
              parseLoop pm rest2
                (updateAt i (fun s => Slot.mk (setValue s.flag newVal) false) slots) := by
  simp only [parseLoop, strHead?_dash, strTail_dash]
  simp

/-- Processing an unprefixed (non-dash, nonempty) token: the regex fallback
branch of the source. -/
theorem parseLoop_unprefixed (pm : String → String → Bool) (arg : String) (c : Char)
    (rest : List String) (slots : List Slot)
    (hh : strHead? arg = some c) (hc : c ≠ '-') :
    parseLoop pm (arg :: rest) slots =
      match findActive (fun f => f.typ == FlagType.regex && pm f.regex arg) slots with
      | some (i, _) =>
        parseLoop pm rest
          (updateAt i (fun s => Slot.mk (setValue s.flag (FlagValue.str arg)) false) slots)
      | none => ⟨some (ParseError.expectedFlag arg), slots⟩ := by
  simp only [parseLoop, hh]
  simp [hc]

/-! ## The claims -/

/-- C2: a RegexString flag matched via the explicit `-name value` form gets
the value token assigned to `current_value` verbatim; the flag's pattern is
not consulted in this branch — here it is even assumed to reject the value —
and the parse simply continues with the remaining tokens. -/
theorem C2_regex_dash_value_verbatim (pm : String → String → Bool) (slots : List Slot)
    (name v : String) (rest : List String) (i : Nat) (flag : Flag)
    (hfind : findActive (fun f => f.name == name) slots = some (i, flag))
    (htyp : flag.typ = FlagType.regex)
    (_hno : pm flag.regex v = false) :
    parseLoop pm (dash name :: v :: rest) slots
      = parseLoop pm rest
          (updateAt i (fun s => Slot.mk (setValue s.flag (FlagValue.str v)) false) slots) := by
  rw [parseLoop_dash, hfind]
  simp [htyp, assignValue, floatStrAssign]

/-- Witness for C2: a RegexString flag `re` with pattern "xyz" (which rejects
"hello" under the concrete oracle) still receives "hello" verbatim. -/
theorem C2_witness :
    parseLoop noMatch (dash "re" :: "hello" :: []) (initSlots [regex_flag "re" "" "xyz" "" false])
      = parseLoop noMatch []
          (updateAt 0 (fun s => Slot.mk (setValue s.flag (FlagValue.str "hello")) false)
            (initSlots [regex_flag "re" "" "xyz" "" false])) :=
  C2_regex_dash_value_verbatim noMatch _ "re" "hello" [] 0 (regex_flag "re" "" "xyz" "" false)
    rfl rfl rfl

/-- C3: an Integer or Float flag matched by `-name` whose value token fails
numeric coercion raises the corresponding type-mismatch error carrying the
flag token, and every flag's `value` at the moment of failure — the failing
flag's included — equals what it held when this token pair was reached: no
rollback, no partial assignment. -/
theorem C3_type_mismatch_no_rollback (pm : String → String → Bool) (slots : List Slot)
    (name v : String) (rest : List String) (i : Nat) (flag : Flag)
    (hfind : findActive (fun f => f.name == name) slots = some (i, flag))
    (hcase : (flag.typ = FlagType.int ∧ pyInt v = none)
      ∨ (flag.typ = FlagType.float ∧ pyFloatOk v = false)) :
    (parseLoop pm (dash name :: v :: rest) slots).err
        = some (if flag.typ = FlagType.int then ParseError.typeMismatchInt (dash name)
                else ParseError.typeMismatchFloat (dash name))
    ∧ (parseLoop pm (dash name :: v :: rest) slots).slots.map (fun s => s.flag.value)
        = slots.map (fun s => s.flag.value) := by
  rw [parseLoop_dash, hfind]
  rcases hcase with ⟨ht, hv⟩ | ⟨ht, hv⟩
  · simp [ht, assignValue, hv, updateAt_deactivate_values]
  · simp [ht, assignValue, floatStrAssign, hv, updateAt_deactivate_values]

/-- Witness for C3: an Integer flag `a` fed the non-numeric token "abc". -/
theorem C3_witness :
    pyInt "abc" = none
    ∧ (parseLoop noMatch (dash "a" :: "abc" :: []) (initSlots [int_flag "a" "" 0 false])).err
        = some (ParseError.typeMismatchInt (dash "a"))
    ∧ (parseLoop noMatch (dash "a" :: "abc" :: [])
          (initSlots [int_flag "a" "" 0 false])).slots.map (fun s => s.flag.value)
        = (initSlots [int_flag "a" "" 0 false]).map (fun s => s.flag.value) :=
  ⟨by decide,
   (C3_type_mismatch_no_rollback noMatch (initSlots [int_flag "a" "" 0 false]) "a" "abc" [] 0
      (int_flag "a" "" 0 false) rfl (Or.inl ⟨rfl, by decide⟩)).1,
   (C3_type_mismatch_no_rollback noMatch (initSlots [int_flag "a" "" 0 false]) "a" "abc" [] 0
      (int_flag "a" "" 0 false) rfl (Or.inl ⟨rfl, by decide⟩)).2⟩

/-- C5: a matched Boolean flag sets `current_value := true` and consumes no
following token — the loop continues at the very next token; moreover the
claim's concrete scenario (`-verbose -name x` with Boolean `verbose` and
String `name`) ends with `verbose = true`, `name = "x"` and no error. -/
theorem C5_bool_no_value_consumed :
    (∀ (pm : String → String → Bool) (slots : List Slot) (name : String)
        (rest : List String) (i : Nat) (flag : Flag),
        findActive (fun f => f.name == name) slots = some (i, flag) →
        flag.typ = FlagType.bool →
        parseLoop pm (dash name :: rest) slots
          = parseLoop pm rest
              (updateAt i (fun s => Slot.mk (setValue s.flag (FlagValue.bool true)) false) slots))
    ∧ (parse_flags noMatch [bool_flag "verbose" "", str_flag "name" "" "" false]
          ["prog", "-verbose", "-name", "x"]).err = none
    ∧ (parse_flags noMatch [bool_flag "verbose" "", str_flag "name" "" "" false]
          ["prog", "-verbose", "-name", "x"]).slots.map (fun s => s.flag.value)
        = [FlagValue.bool true, FlagValue.str "x"] := by
  refine ⟨?_, by decide, by decide⟩
  intro pm slots name rest i flag hfind htyp
  rw [parseLoop_dash, hfind]
  simp [htyp]

/-- Witness for C5: the Boolean step at the claim's own registry. -/
theorem C5_witness :
    parseLoop noMatch (dash "verbose" :: "-name" :: "x" :: [])
        (initSlots [bool_flag "verbose" "", str_flag "name" "" "" false])
      = parseLoop noMatch ("-name" :: "x" :: [])
          (updateAt 0 (fun s => Slot.mk (setValue s.flag (FlagValue.bool true)) false)
            (initSlots [bool_flag "verbose" "", str_flag "name" "" "" false])) :=
  C5_bool_no_value_consumed.1 noMatch _ "verbose" _ 0 (bool_flag "verbose" "") rfl rfl

/-- C7: a `-text` token whose stripped text matches no still-active flag name
raises the unknown-flag error carrying the raw token, with the parse state
exactly as it was — no flag's `value` is mutated at or after that point. -/
theorem C7_unknown_flag_no_mutation (pm : String → String → Bool) (slots : List Slot)
    (name : String) (rest : List String)
    (h : ∀ s ∈ slots, s.active = true → s.flag.name ≠ name) :
    parseLoop pm (dash name :: rest) slots
      = ⟨some (ParseError.unknownFlag (dash name)), slots⟩ := by
  have hn : findActive (fun f => f.name == name) slots = none := by
    apply findActive_none
    intro s hs
    cases ha : s.active with
    | false => simp
    | true => simp [h s hs ha]
  rw [parseLoop_dash, hn]

/-- Witness for C7: `-bogus` against a registry holding only `name`. -/
theorem C7_witness :
    parseLoop noMatch (dash "bogus" :: []) (initSlots [str_flag "name" "" "" false])
      = ⟨some (ParseError.unknownFlag (dash "bogus")), initSlots [str_flag "name" "" "" false]⟩ :=
  C7_unknown_flag_no_mutation noMatch _ "bogus" [] (by decide)

/-- C9: a non-Boolean flag named by the final token gets found and popped,
then the missing-value error is raised carrying the flag token; every flag's
`value` — the named flag's included, hence its default if never matched —
is exactly as before the token. -/
theorem C9_missing_value_last_token (pm : String → String → Bool) (slots : List Slot)
    (name : String) (i : Nat) (flag : Flag)
    (hfind : findActive (fun f => f.name == name) slots = some (i, flag))
    (hnb : flag.typ ≠ FlagType.bool) :
    parseLoop pm [dash name] slots
      = ⟨some (ParseError.missingValue (dash name)),
         updateAt i (fun s => Slot.mk s.flag false) slots⟩
    ∧ (updateAt i (fun s => Slot.mk s.flag false) slots).map (fun s => s.flag.value)
      = slots.map (fun s => s.flag.value) := by
  constructor
  · rw [parseLoop_dash, hfind]
    simp [hnb]
  · exact updateAt_deactivate_values i slots

/-- Witness for C9: required Integer `port` named with no value following. -/
theorem C9_witness :
    parseLoop noMatch [dash "port"] (initSlots [int_flag "port" "" 8080 true])
      = ⟨some (ParseError.missingValue (dash "port")),
         updateAt 0 (fun s => Slot.mk s.flag false) (initSlots [int_flag "port" "" 8080 true])⟩
    ∧ (updateAt 0 (fun s => Slot.mk s.flag false)
          (initSlots [int_flag "port" "" 8080 true])).map (fun s => s.flag.value)
      = (initSlots [int_flag "port" "" 8080 true]).map (fun s => s.flag.value) :=
  C9_missing_value_last_token noMatch _ "port" 0 (int_flag "port" "" 8080 true) rfl (by decide)

/-- C4: on an unprefixed token, the first still-active RegexString slot (in
registration order) whose pattern matches wins: with `r1` before `r2`, no
earlier active match, and both patterns matching the token, `r1` receives the
token and `r2`'s slot — hence its `current_value`, its default if never
matched — is untouched, as is every other slot. -/
theorem C4_regex_first_match_wins (pm : String → String → Bool)
    (pre : List Slot) (r1 : Slot) (mid : List Slot) (r2 : Slot) (post : List Slot)
    (arg : String) (c : Char) (rest : List String)
    (hh : strHead? arg = some c) (hc : c ≠ '-')
    (hpre : ∀ s ∈ pre, s.active = true → s.flag.typ = FlagType.regex →
      pm s.flag.regex arg = false)
    (h1a : r1.active = true) (h1t : r1.flag.typ = FlagType.regex)
    (h1m : pm r1.flag.regex arg = true)
    (_h2m : pm r2.flag.regex arg = true) :
    parseLoop pm (arg :: rest) (pre ++ r1 :: (mid ++ r2 :: post))
      = parseLoop pm rest
          (pre ++ Slot.mk (setValue r1.flag (FlagValue.str arg)) false
            :: (mid ++ r2 :: post)) := by
  rw [parseLoop_unprefixed pm arg c rest _ hh hc]
  have hfa : findActive (fun f => f.typ == FlagType.regex && pm f.regex arg)
      (pre ++ r1 :: (mid ++ r2 :: post)) = some (pre.length, r1.flag) := by
    apply findActive_append
    · intro s hs
      cases ha : s.active with
      | false => simp
      | true =>
        by_cases ht : s.flag.typ = FlagType.regex
        · simp [ht, hpre s hs ha ht]
        · simp [ht]
    · simp [h1a, h1t, h1m]
  rw [hfa]
  simp [updateAt_append]

/-- Witness for C4: patterns "ab" and "a" both literally match "abc"; the
earlier-registered flag gets it. -/
theorem C4_witness :
    litPrefixMatch "ab" "abc" = true ∧ litPrefixMatch "a" "abc" = true
    ∧ parseLoop litPrefixMatch ["abc"]
        [Slot.mk (regex_flag "r1" "" "ab" "" false) true,
         Slot.mk (regex_flag "r2" "" "a" "" false) true]
      = parseLoop litPrefixMatch []
        [Slot.mk (setValue (regex_flag "r1" "" "ab" "" false) (FlagValue.str "abc")) false,
         Slot.mk (regex_flag "r2" "" "a" "" false) true] :=
  ⟨rfl, rfl,
   C4_regex_first_match_wins litPrefixMatch [] (Slot.mk (regex_flag "r1" "" "ab" "" false) true)
     [] (Slot.mk (regex_flag "r2" "" "a" "" false) true) [] "abc" 'a' [] rfl (by decide)
     (by intro s hs; cases hs) rfl rfl rfl rfl⟩

/-- C8: name lookup on a prefixed token is exact-match on the full stripped
string and picks the first still-active slot (registration order) whose name
equals it: with no earlier active slot of that exact name — regardless of how
similar the earlier or later names are, and regardless of inactive (already
matched) duplicates in the prefix — the slot `b` is selected and every other
slot is left untouched. -/
theorem C8_name_lookup_first_exact_match (pm : String → String → Bool)
    (pre : List Slot) (b : Slot) (post : List Slot)
    (name v : String) (rest : List String)
    (hpre : ∀ s ∈ pre, s.active = true → s.flag.name ≠ name)
    (hb : b.active = true) (hname : b.flag.name = name)
    (htyp : b.flag.typ = FlagType.str) :
    parseLoop pm (dash name :: v :: rest) (pre ++ b :: post)
      = parseLoop pm rest
          (pre ++ Slot.mk (setValue b.flag (FlagValue.str v)) false :: post) := by
  rw [parseLoop_dash]
  have hfa : findActive (fun f => f.name == name) (pre ++ b :: post)
      = some (pre.length, b.flag) := by
    apply findActive_append
    · intro s hs
      cases ha : s.active with
      | false => simp
      | true => simp [hpre s hs ha]
    · simp [hb, hname]
  rw [hfa]
  simp [htyp, assignValue, floatStrAssign, updateAt_append]

/-- Witness for C8: flags `por`, `port`, `portx` registered in that order;
token `-port` with value "v" selects exactly the middle one. -/
theorem C8_witness :
    parseLoop noMatch (dash "port" :: "v" :: [])
        [Slot.mk (str_flag "por" "" "" false) true, Slot.mk (str_flag "port" "" "" false) true,
         Slot.mk (str_flag "portx" "" "" false) true]
      = parseLoop noMatch []
        [Slot.mk (str_flag "por" "" "" false) true,
         Slot.mk (setValue (str_flag "port" "" "" false) (FlagValue.str "v")) false,
         Slot.mk (str_flag "portx" "" "" false) true] :=
  C8_name_lookup_first_exact_match noMatch [Slot.mk (str_flag "por" "" "" false) true]
    (Slot.mk (str_flag "port" "" "" false) true) [Slot.mk (str_flag "portx" "" "" false) true]
    "port" "v" [] (by decide) rfl rfl rfl

/-- First-required scan over a fresh working copy agrees with a plain
`find?` over the registry. -/
theorem firstRequired_init (registry : List Flag) :
    firstRequired (initSlots registry) = registry.find? (fun f => f.required) := by
  induction registry with
  | nil => rfl
  | cons f rest ih =>
    cases h : f.required with
    | true => simp [initSlots, firstRequired, List.find?, h]
    | false => simpa [initSlots, firstRequired, List.find?, h] using ih

/-- The flag records of a fresh working copy are the registry itself. -/
theorem flags_initSlots (registry : List Flag) :
    (initSlots registry).map Slot.flag = registry := by
  induction registry with
  | nil => rfl
  | cons f rest ih => simp [initSlots] at ih ⊢; exact ih

/-- C6: parsing an argument vector with no tokens after the program name: if
no registered flag is required the parse succeeds and (given the registration
invariant `value = default`) every flag still holds its default; if some flag
is required, the parse fails with the required-flag error naming the first
required flag in registration order. -/
theorem C6_empty_args_defaults_or_required (pm : String → String → Bool) (prog : String)
    (registry : List Flag) (hdef : ∀ f ∈ registry, f.value = f.default) :
    (registry.find? (fun f => f.required) = none →
      (parse_flags pm registry [prog]).err = none
      ∧ ∀ f ∈ (parse_flags pm registry [prog]).flags, f.value = f.default)
    ∧ (∀ f0, registry.find? (fun f => f.required) = some f0 →
      (parse_flags pm registry [prog]).err = some (ParseError.requiredMissing f0.name)
      ∧ f0.required = true ∧ f0 ∈ registry) := by
  have hpf : parse_flags pm registry [prog] = requiredCheck (initSlots registry) := rfl
  constructor
  · intro hn
    have h1 : firstRequired (initSlots registry) = none := by rw [firstRequired_init, hn]
    rw [hpf]
    unfold requiredCheck
    rw [h1]
    refine ⟨rfl, ?_⟩
    intro f hf
    have hf2 : f ∈ registry := by
      have := flags_initSlots registry
      simpa [ParseResult.flags, this] using hf
    exact hdef f hf2
  · intro f0 hf0
    have h1 : firstRequired (initSlots registry) = some f0 := by rw [firstRequired_init, hf0]
    rw [hpf]
    unfold requiredCheck
    rw [h1]
    exact ⟨rfl, List.find?_some hf0, List.mem_of_find?_eq_some hf0⟩

/-- Witness for C6: a lone required Integer `port`, empty token list. -/
theorem C6_witness :
    (parse_flags noMatch [int_flag "port" "" 8080 true] ["prog"]).err
      = some (ParseError.requiredMissing "port")
    ∧ (int_flag "port" "" 8080 true).required = true :=
  have h := (C6_empty_args_defaults_or_required noMatch "prog" [int_flag "port" "" 8080 true]
    (by decide)).2 (int_flag "port" "" 8080 true) rfl
  ⟨h.1, h.2.1⟩

/-- C1: evaluating the source on the claim's own scenario — Integer `port`
(default 8080, required), tokens `-port 9090` — parses without error but
leaves `current_value` as the string "9090", not the integer 9090: the INT
branch's coerced value is immediately overwritten because the verbatim-string
`else` is attached to the FLOAT `if`, not to an `elif` chain.  The general
conjunct shows every successful INT coercion ends as the raw string. -/
theorem C1_int_value_ends_as_string :
    (parse_flags noMatch [int_flag "port" "" 8080 true] ["prog", "-port", "9090"]).err = none
    ∧ (parse_flags noMatch [int_flag "port" "" 8080 true]
        ["prog", "-port", "9090"]).slots.map (fun s => s.flag.value) = [FlagValue.str "9090"]
    ∧ FlagValue.str "9090" ≠ FlagValue.int 9090
    ∧ (∀ (t v : String) (n : Int), pyInt v = some n →
        assignValue FlagType.int t v = Except.ok (FlagValue.str v)) := by
  refine ⟨by decide, by decide, by decide, ?_⟩
  intro t v n hv
  simp [assignValue, hv, floatStrAssign]

/-- Witness for C1's general conjunct: the valid numeric token "5". -/
theorem C1_witness :
    pyInt "5" = some 5
    ∧ assignValue FlagType.int "-a" "5" = Except.ok (FlagValue.str "5") :=
  ⟨by decide, C1_int_value_ends_as_string.2.2.2 "-a" "5" 5 (by decide)⟩

/-- C10, counterexample to the claim as stated: an argument vector may well
contain an empty-string token after the program name without any
out-of-bounds indexing — here the empty token is consumed as the String flag
`name`'s value and the parse succeeds. -/
theorem C10_empty_token_as_value_no_error :
    "" ∈ ["-name", ""]
    ∧ (parse_flags noMatch [str_flag "name" "" "" false] ["prog", "-name", ""]).err = none
    ∧ (parse_flags noMatch [str_flag "name" "" "" false] ["prog", "-name", ""]).slots.map
        (fun s => s.flag.value) = [FlagValue.str ""] := by
  refine ⟨by decide, by decide, by decide⟩

/-- C10, amended: when an empty-string token is reached in flag position
(popped at the top of the loop — here as the first processed token), the
unguarded `arg[0]` raises IndexError for every registry with no flag
mutated, and that error is distinct from all five specified error kinds. -/
theorem C10_empty_token_flag_position_index_error :
    (∀ (pm : String → String → Bool) (registry : List Flag) (rest : List String)
        (prog : String),
      parse_flags pm registry (prog :: "" :: rest)
        = ⟨some ParseError.indexError, initSlots registry⟩)
    ∧ ∀ tok nm : String,
      ParseError.indexError ≠ ParseError.expectedFlag tok
      ∧ ParseError.indexError ≠ ParseError.unknownFlag tok
      ∧ ParseError.indexError ≠ ParseError.missingValue tok
      ∧ ParseError.indexError ≠ ParseError.typeMismatchInt tok
      ∧ ParseError.indexError ≠ ParseError.typeMismatchFloat tok
      ∧ ParseError.indexError ≠ ParseError.requiredMissing nm := by
  constructor
  · intro pm registry rest prog
    show parseLoop pm ("" :: rest) (initSlots registry) = _
    have h0 : strHead? "" = none := rfl
    simp [parseLoop, h0]
  · intro tok nm
    refine ⟨by simp, by simp, by simp, by simp, by simp, by simp⟩

end Argv
